import Mathlib

/-!
Verification of `src/src/emc/motion/simple_tp.c` (LinuxCNC's single-channel
per-cycle motion limiter, derived from limit3.comp).

The C code works over `double`; we embed it over `ℚ`, reading the C arithmetic
as exact real arithmetic.  `fabs`, `fmin`, `fmax` and `pow(x,2)` become `|·|`,
`min`, `max` and `x^2`.  The struct `simple_tp_t` keeps the C field names;
the C `int active` (only ever 0 or 1) becomes a `Bool`.
-/

/-- Channel state, mirroring `simple_tp_t` (fields used by `simple_tp_update`). -/
structure simple_tp_t where
  pos_cmd : ℚ
  curr_pos : ℚ
  curr_vel : ℚ
  in_pos_old : ℚ
  out_vel_old : ℚ
  min_pos : ℚ
  max_pos : ℚ
  max_vel : ℚ
  max_acc : ℚ
  enable : Bool
  disallow_backoff : Bool
  active : Bool
  deriving DecidableEq, Repr

/-- Modelled from the spec: the macro `TINY_DP(max_acc, period)` lives in
`simple_tp.h`, which is not part of the sources; the spec describes it as the
minimum position change resolvable in one cycle given the acceleration limit,
i.e. the displacement `(1/2)·max_acc·period²` reached from rest at maximal
acceleration.  Only its dependence on `max_acc` and the period matters for the
theorems below. -/
def TINY_DP (mx_acc fperiod : ℚ) : ℚ :=
  1/2 * mx_acc * fperiod^2

/-- The `SET_NEXT_STATE(out_pos, out_vel, in_pos)` macro: commit the chosen
candidate, then clear `active` when the committed position is within the tiny
settle threshold of the command.  (The macro writes the four fields, recomputes
`tiny_dp = fabs(TINY_DP(max_acc, fperiod))`, and tests
`fabs(curr_pos - pos_cmd) < tiny_dp` on the freshly written `curr_pos`.) -/
def SET_NEXT_STATE (tp : simple_tp_t) (fperiod out_pos out_vel in_pos : ℚ) :
    simple_tp_t :=
  { tp with
    curr_pos := out_pos
    out_vel_old := out_vel
    curr_vel := out_vel
    in_pos_old := in_pos
    active := if |out_pos - tp.pos_cmd| < |TINY_DP tp.max_acc fperiod| then
        false
      else tp.active }

/-- Local `in_vel`: input velocity by finite difference,
`(tp->pos_cmd - tp->in_pos_old) / fperiod`. -/
def in_vel (tp : simple_tp_t) (fperiod : ℚ) : ℚ :=
  (tp.pos_cmd - tp.in_pos_old) / fperiod

/-- Local `min_vel`: most negative velocity reachable in one period,
`fmax(tp->out_vel_old - tp->max_acc * fperiod, -tp->max_vel)`. -/
def min_vel (tp : simple_tp_t) (fperiod : ℚ) : ℚ :=
  max (tp.out_vel_old - tp.max_acc * fperiod) (-tp.max_vel)

/-- Local `max_vel`: most positive velocity reachable in one period,
`fmin(tp->out_vel_old + tp->max_acc * fperiod, tp->max_vel)`. -/
def max_vel (tp : simple_tp_t) (fperiod : ℚ) : ℚ :=
  min (tp.out_vel_old + tp.max_acc * fperiod) tp.max_vel

/-- Local `min_pos`: most negative position reachable in one period. -/
def min_pos (tp : simple_tp_t) (fperiod : ℚ) : ℚ :=
  tp.curr_pos + min_vel tp fperiod * fperiod

/-- Local `max_pos`: most positive position reachable in one period. -/
def max_pos (tp : simple_tp_t) (fperiod : ℚ) : ℚ :=
  tp.curr_pos + max_vel tp fperiod * fperiod

/-- Local `out_dir`: sign of output movement, `(out_vel_old < 0) ? -1 : 1`. -/
def out_dir (tp : simple_tp_t) : ℚ :=
  if tp.out_vel_old < 0 then -1 else 1

/-- Local `out_dir_rel`: sign of output movement relative to input movement,
`(out_vel_old - in_vel < 0) ? -1 : 1`. -/
def out_dir_rel (tp : simple_tp_t) (fperiod : ℚ) : ℚ :=
  if tp.out_vel_old - in_vel tp fperiod < 0 then -1 else 1

/-- Local `vel_0_time`: minimal time to decelerate to a stop,
`fabs(out_vel_old / max_acc)`. -/
def vel_0_time (tp : simple_tp_t) : ℚ :=
  |tp.out_vel_old / tp.max_acc|

/-- Local `vel_0_pos`: projected position after decelerating to a stop. -/
def vel_0_pos (tp : simple_tp_t) (fperiod : ℚ) : ℚ :=
  tp.curr_pos + tp.out_vel_old * (vel_0_time tp + fperiod)
    + 1/2 * (-out_dir tp * tp.max_acc) * (vel_0_time tp)^2

/-- Local `vel_match_time`: minimal time for the output to match the input
velocity, `fabs(out_vel_old - in_vel) / max_acc`. -/
def vel_match_time (tp : simple_tp_t) (fperiod : ℚ) : ℚ :=
  |tp.out_vel_old - in_vel tp fperiod| / tp.max_acc

/-- Local `vel_match_in_pos`: input position after the velocity match. -/
def vel_match_in_pos (tp : simple_tp_t) (fperiod : ℚ) : ℚ :=
  tp.pos_cmd + in_vel tp fperiod * vel_match_time tp fperiod

/-- Local `vel_match_out_pos`: output position after the velocity match. -/
def vel_match_out_pos (tp : simple_tp_t) (fperiod : ℚ) : ℚ :=
  tp.curr_pos + tp.out_vel_old * (vel_match_time tp fperiod + fperiod)
    + 1/2 * (-out_dir_rel tp fperiod * tp.max_acc) * (vel_match_time tp fperiod)^2

/-- The `VALID_NEXT(pos, vel)` macro: the candidate pair lies inside the
one-period reachable window (the macro closes over the local variables
`min_pos`, `max_pos`, `min_vel`, `max_vel`). -/
def VALID_NEXT (tp : simple_tp_t) (fperiod pos vel : ℚ) : Bool :=
  decide (pos ≤ max_pos tp fperiod ∧ pos ≥ min_pos tp fperiod
    ∧ vel ≤ max_vel tp fperiod ∧ vel ≥ min_vel tp fperiod)

/-- Guard of cascade rule 1 (stop-overshoot, max side):
`vel_0_pos >= tp->max_pos && !VALID_NEXT(tp->max_pos, 0)`. -/
def guard1 (tp : simple_tp_t) (fperiod : ℚ) : Bool :=
  decide (vel_0_pos tp fperiod ≥ tp.max_pos) && !VALID_NEXT tp fperiod tp.max_pos 0

/-- Guard of cascade rule 2 (stop-overshoot, min side):
`vel_0_pos <= tp->min_pos && !VALID_NEXT(tp->min_pos, 0)`. -/
def guard2 (tp : simple_tp_t) (fperiod : ℚ) : Bool :=
  decide (vel_0_pos tp fperiod ≤ tp.min_pos) && !VALID_NEXT tp fperiod tp.min_pos 0

/-- Guard of cascade rule 3 (below-min / heading-to-min). -/
def guard3 (tp : simple_tp_t) (fperiod : ℚ) : Bool :=
  decide (vel_match_in_pos tp fperiod < tp.min_pos
    ∨ (tp.pos_cmd ≤ tp.min_pos
       ∧ vel_match_in_pos tp fperiod < vel_match_out_pos tp fperiod))

/-- Guard of cascade rule 4 (above-max / heading-to-max). -/
def guard4 (tp : simple_tp_t) (fperiod : ℚ) : Bool :=
  decide (vel_match_in_pos tp fperiod > tp.max_pos
    ∨ (tp.pos_cmd ≥ tp.max_pos
       ∧ vel_match_in_pos tp fperiod > vel_match_out_pos tp fperiod))

/-- Guard of cascade rule 5 (direct tracking):
`VALID_NEXT(tp->pos_cmd, in_vel)`. -/
def guard5 (tp : simple_tp_t) (fperiod : ℚ) : Bool :=
  VALID_NEXT tp fperiod tp.pos_cmd (in_vel tp fperiod)

/-- The function `simple_tp_update(tp, fperiod)`.  The C body sets
`tp->active = 1` at entry and every branch returns through `SET_NEXT_STATE`,
whose settle check may clear `active` again; none of the guards read `active`,
so the entry write is folded into the state passed to each branch.  The
sequential early-return `if` chain of the C source becomes an `if`/`else`
cascade; when no rule fires the C function falls off the end, returning with
only `tp->active = 1` written. -/
def simple_tp_update (tp : simple_tp_t) (fperiod : ℚ) : simple_tp_t :=
  if tp.enable = false then
    SET_NEXT_STATE { tp with active := true, pos_cmd := tp.curr_pos }
      fperiod tp.curr_pos 0 tp.curr_pos
  else if guard1 tp fperiod = true then
    SET_NEXT_STATE { tp with active := true }
      fperiod (min_pos tp fperiod) (min_vel tp fperiod) tp.pos_cmd
  else if guard2 tp fperiod = true then
    SET_NEXT_STATE { tp with active := true }
      fperiod (max_pos tp fperiod) (max_vel tp fperiod) tp.pos_cmd
  else if guard3 tp fperiod = true then
    (if VALID_NEXT tp fperiod tp.min_pos 0 = true then
      SET_NEXT_STATE { tp with active := true } fperiod tp.min_pos 0 tp.pos_cmd
    else
      SET_NEXT_STATE { tp with active := true }
        fperiod (min_pos tp fperiod) (min_vel tp fperiod) tp.pos_cmd)
  else if guard4 tp fperiod = true then
    (if VALID_NEXT tp fperiod tp.max_pos 0 = true then
      SET_NEXT_STATE { tp with active := true } fperiod tp.max_pos 0 tp.pos_cmd
    else
      SET_NEXT_STATE { tp with active := true }
        fperiod (max_pos tp fperiod) (max_vel tp fperiod) tp.pos_cmd)
  else if guard5 tp fperiod = true then
    SET_NEXT_STATE { tp with active := true }
      fperiod tp.pos_cmd (in_vel tp fperiod) tp.pos_cmd
  else if tp.curr_pos > tp.pos_cmd then
    (if vel_match_in_pos tp fperiod < vel_match_out_pos tp fperiod then
      SET_NEXT_STATE { tp with active := true }
        fperiod (min_pos tp fperiod) (min_vel tp fperiod) tp.pos_cmd
    else if tp.disallow_backoff = true then
      SET_NEXT_STATE { tp with active := true }
        fperiod (min_pos tp fperiod) (min_vel tp fperiod) tp.pos_cmd
    else
      SET_NEXT_STATE { tp with active := true }
        fperiod (max_pos tp fperiod) (max_vel tp fperiod) tp.pos_cmd)
  else if tp.curr_pos < tp.pos_cmd then
    (if vel_match_in_pos tp fperiod > vel_match_out_pos tp fperiod then
      SET_NEXT_STATE { tp with active := true }
        fperiod (max_pos tp fperiod) (max_vel tp fperiod) tp.pos_cmd
    else if tp.disallow_backoff = true then
      SET_NEXT_STATE { tp with active := true }
        fperiod (max_pos tp fperiod) (max_vel tp fperiod) tp.pos_cmd
    else
      SET_NEXT_STATE { tp with active := true }
        fperiod (min_pos tp fperiod) (min_vel tp fperiod) tp.pos_cmd)
  else
    { tp with active := true }

/-! ## Helper lemmas -/

theorem SET_curr_pos (tp : simple_tp_t) (T op ov ip : ℚ) :
    (SET_NEXT_STATE tp T op ov ip).curr_pos = op := rfl

theorem SET_curr_vel (tp : simple_tp_t) (T op ov ip : ℚ) :
    (SET_NEXT_STATE tp T op ov ip).curr_vel = ov := rfl

theorem SET_out_vel_old (tp : simple_tp_t) (T op ov ip : ℚ) :
    (SET_NEXT_STATE tp T op ov ip).out_vel_old = ov := rfl

theorem SET_in_pos_old (tp : simple_tp_t) (T op ov ip : ℚ) :
    (SET_NEXT_STATE tp T op ov ip).in_pos_old = ip := rfl

theorem SET_pos_cmd (tp : simple_tp_t) (T op ov ip : ℚ) :
    (SET_NEXT_STATE tp T op ov ip).pos_cmd = tp.pos_cmd := rfl

theorem SET_active (tp : simple_tp_t) (T op ov ip : ℚ) :
    (SET_NEXT_STATE tp T op ov ip).active =
      if |op - tp.pos_cmd| < |TINY_DP tp.max_acc T| then false else tp.active := rfl

/-- The reachable velocity window lies within `[-max_vel, max_vel]` once the
previous output velocity does and `max_acc * fperiod` is nonnegative. -/
theorem min_vel_mem (tp : simple_tp_t) (T : ℚ)
    (hovo : |tp.out_vel_old| ≤ tp.max_vel) (haT : 0 ≤ tp.max_acc * T) :
    -tp.max_vel ≤ min_vel tp T ∧ min_vel tp T ≤ tp.max_vel := by
  rw [abs_le] at hovo
  exact ⟨le_max_right _ _, max_le (by linarith [hovo.1, hovo.2]) (by linarith [hovo.1, hovo.2])⟩

theorem max_vel_mem (tp : simple_tp_t) (T : ℚ)
    (hovo : |tp.out_vel_old| ≤ tp.max_vel) (haT : 0 ≤ tp.max_acc * T) :
    -tp.max_vel ≤ max_vel tp T ∧ max_vel tp T ≤ tp.max_vel := by
  rw [abs_le] at hovo
  refine ⟨le_min (by linarith [hovo.1]) ?_, min_le_right _ _⟩
  linarith [hovo.1, hovo.2]

theorem SET_enable (tp : simple_tp_t) (T op ov ip : ℚ) :
    (SET_NEXT_STATE tp T op ov ip).enable = tp.enable := rfl

theorem SET_min_pos (tp : simple_tp_t) (T op ov ip : ℚ) :
    (SET_NEXT_STATE tp T op ov ip).min_pos = tp.min_pos := rfl

theorem SET_max_pos (tp : simple_tp_t) (T op ov ip : ℚ) :
    (SET_NEXT_STATE tp T op ov ip).max_pos = tp.max_pos := rfl

theorem SET_max_vel (tp : simple_tp_t) (T op ov ip : ℚ) :
    (SET_NEXT_STATE tp T op ov ip).max_vel = tp.max_vel := rfl

theorem SET_max_acc (tp : simple_tp_t) (T op ov ip : ℚ) :
    (SET_NEXT_STATE tp T op ov ip).max_acc = tp.max_acc := rfl

theorem SET_disallow_backoff (tp : simple_tp_t) (T op ov ip : ℚ) :
    (SET_NEXT_STATE tp T op ov ip).disallow_backoff = tp.disallow_backoff := rfl

/-- Exhaustive enumeration of the branches of `simple_tp_update`: the call
either takes the disabled path, commits one of the five candidate kinds of the
cascade through `SET_NEXT_STATE` (reachable extreme, parking at a limit, or
direct tracking), or falls off the end of the function with every guard false
and `curr_pos = pos_cmd`. -/
theorem update_branches (tp : simple_tp_t) (T : ℚ) :
    (tp.enable = false ∧
      simple_tp_update tp T =
        SET_NEXT_STATE { tp with active := true, pos_cmd := tp.curr_pos }
          T tp.curr_pos 0 tp.curr_pos)
    ∨ (tp.enable = true ∧
      (simple_tp_update tp T =
          SET_NEXT_STATE { tp with active := true }
            T (min_pos tp T) (min_vel tp T) tp.pos_cmd
      ∨ simple_tp_update tp T =
          SET_NEXT_STATE { tp with active := true }
            T (max_pos tp T) (max_vel tp T) tp.pos_cmd
      ∨ (VALID_NEXT tp T tp.min_pos 0 = true ∧
          simple_tp_update tp T =
            SET_NEXT_STATE { tp with active := true } T tp.min_pos 0 tp.pos_cmd)
      ∨ (VALID_NEXT tp T tp.max_pos 0 = true ∧
          simple_tp_update tp T =
            SET_NEXT_STATE { tp with active := true } T tp.max_pos 0 tp.pos_cmd)
      ∨ (guard5 tp T = true ∧
          simple_tp_update tp T =
            SET_NEXT_STATE { tp with active := true }
              T tp.pos_cmd (in_vel tp T) tp.pos_cmd)
      ∨ (guard1 tp T = false ∧ guard2 tp T = false ∧ guard3 tp T = false ∧
          guard4 tp T = false ∧ guard5 tp T = false ∧
          tp.curr_pos = tp.pos_cmd ∧
          simple_tp_update tp T = { tp with active := true }))) := by
  by_cases he : tp.enable = false
  · exact Or.inl ⟨he, by rw [simple_tp_update, if_pos he]⟩
  · refine Or.inr ⟨by simpa using he, ?_⟩
    rw [simple_tp_update, if_neg he]
    by_cases h1 : guard1 tp T = true
    · rw [if_pos h1]; exact Or.inl rfl
    · rw [if_neg h1]
      by_cases h2 : guard2 tp T = true
      · rw [if_pos h2]; exact Or.inr (Or.inl rfl)
      · rw [if_neg h2]
        by_cases h3 : guard3 tp T = true
        · rw [if_pos h3]
          by_cases hv : VALID_NEXT tp T tp.min_pos 0 = true
          · rw [if_pos hv]; exact Or.inr (Or.inr (Or.inl ⟨hv, rfl⟩))
          · rw [if_neg hv]; exact Or.inl rfl
        · rw [if_neg h3]
          by_cases h4 : guard4 tp T = true
          · rw [if_pos h4]
            by_cases hv : VALID_NEXT tp T tp.max_pos 0 = true
            · rw [if_pos hv]; exact Or.inr (Or.inr (Or.inr (Or.inl ⟨hv, rfl⟩)))
            · rw [if_neg hv]; exact Or.inr (Or.inl rfl)
          · rw [if_neg h4]
            by_cases h5 : guard5 tp T = true
            · rw [if_pos h5]
              exact Or.inr (Or.inr (Or.inr (Or.inr (Or.inl ⟨h5, rfl⟩))))
            · rw [if_neg h5]
              by_cases hgt : tp.curr_pos > tp.pos_cmd
              · rw [if_pos hgt]
                by_cases hm : vel_match_in_pos tp T < vel_match_out_pos tp T
                · rw [if_pos hm]; exact Or.inl rfl
                · rw [if_neg hm]
                  by_cases hd : tp.disallow_backoff = true
                  · rw [if_pos hd]; exact Or.inl rfl
                  · rw [if_neg hd]; exact Or.inr (Or.inl rfl)
              · rw [if_neg hgt]
                by_cases hlt : tp.curr_pos < tp.pos_cmd
                · rw [if_pos hlt]
                  by_cases hm : vel_match_in_pos tp T > vel_match_out_pos tp T
                  · rw [if_pos hm]; exact Or.inr (Or.inl rfl)
                  · rw [if_neg hm]
                    by_cases hd : tp.disallow_backoff = true
                    · rw [if_pos hd]; exact Or.inr (Or.inl rfl)
                    · rw [if_neg hd]; exact Or.inl rfl
                · rw [if_neg hlt]
                  refine Or.inr (Or.inr (Or.inr (Or.inr (Or.inr
                    ⟨eq_false_of_ne_true h1, eq_false_of_ne_true h2,
                     eq_false_of_ne_true h3, eq_false_of_ne_true h4,
                     eq_false_of_ne_true h5, le_antisymm (not_lt.mp hgt) (not_lt.mp hlt), rfl⟩))))

/-- C2: after any update from a state with `|out_vel_old| ≤ max_vel` and
`|curr_vel| ≤ max_vel` (with `max_vel ≥ 0`, `max_acc > 0`, positive period),
the output velocity satisfies `|curr_vel| ≤ max_vel`: every committed velocity
is `0`, a clipped window extreme `min_vel`/`max_vel`, or an input velocity that
passed the `VALID_NEXT` window test. -/
theorem C2_velocity_bound (tp : simple_tp_t) (T : ℚ)
    (hV : 0 ≤ tp.max_vel) (ha : 0 < tp.max_acc) (hT : 0 < T)
    (hovo : |tp.out_vel_old| ≤ tp.max_vel)
    (hcv : |tp.curr_vel| ≤ tp.max_vel) :
    |(simple_tp_update tp T).curr_vel| ≤ tp.max_vel := by
  have haT : 0 ≤ tp.max_acc * T := mul_nonneg ha.le hT.le
  have hmin := min_vel_mem tp T hovo haT
  have hmax := max_vel_mem tp T hovo haT
  have h0 : |(0:ℚ)| ≤ tp.max_vel := by simpa using hV
  have hminab : |min_vel tp T| ≤ tp.max_vel := abs_le.mpr hmin
  have hmaxab : |max_vel tp T| ≤ tp.max_vel := abs_le.mpr hmax
  rcases update_branches tp T with ⟨-, hu⟩ |
    ⟨-, hu | hu | ⟨-, hu⟩ | ⟨-, hu⟩ | ⟨h5, hu⟩ | ⟨-, -, -, -, -, -, hu⟩⟩ <;>
      rw [hu] <;>
      try first | exact hminab | exact hmaxab | exact h0 | exact hcv
  · -- direct tracking: the input velocity passed the window test
    rw [guard5, VALID_NEXT, decide_eq_true_eq] at h5
    exact abs_le.mpr ⟨le_trans hmin.1 h5.2.2.2, le_trans h5.2.2.1 hmax.2⟩

/-! ## C1: position bound preservation -/

/-- A bounds-enforced state (`curr_pos` within `[min_pos, max_pos]`,
`|out_vel_old| ≤ max_vel`, `min_pos ≤ max_pos`, `max_vel ≥ 0`, `max_acc > 0`)
on which a single update leaves the position bounds: the command `3/10` sits
above `max_pos = 0`, the derived input velocity `-1` makes both limit-heading
projections point back inside, and the pair passes `VALID_NEXT`, so the
direct-tracking rule commits `curr_pos = 3/10 > max_pos`. -/
def C1_cex_state : simple_tp_t :=
  { pos_cmd := 3/10, curr_pos := -1/10, curr_vel := 0, in_pos_old := 13/10,
    out_vel_old := 0, min_pos := -100, max_pos := 0, max_vel := 10, max_acc := 1,
    enable := true, disallow_backoff := false, active := true }

/-- C1 as stated is false: all of its hypotheses hold at `C1_cex_state` with
period `1`, yet the committed `curr_pos` exceeds `max_pos`. -/
theorem C1_counterexample :
    C1_cex_state.min_pos ≤ C1_cex_state.max_pos ∧
    0 ≤ C1_cex_state.max_vel ∧ 0 < C1_cex_state.max_acc ∧ ((0:ℚ) < 1) ∧
    C1_cex_state.min_pos ≤ C1_cex_state.curr_pos ∧
    C1_cex_state.curr_pos ≤ C1_cex_state.max_pos ∧
    |C1_cex_state.out_vel_old| ≤ C1_cex_state.max_vel ∧
    ¬ ((simple_tp_update C1_cex_state 1).curr_pos ≤ C1_cex_state.max_pos) := by
  refine ⟨by norm_num [C1_cex_state], by norm_num [C1_cex_state],
    by norm_num [C1_cex_state], by norm_num, by norm_num [C1_cex_state],
    by norm_num [C1_cex_state], by norm_num [C1_cex_state], ?_⟩
  norm_num [C1_cex_state, simple_tp_update, SET_NEXT_STATE, guard1, guard2, guard3,
    guard4, guard5, VALID_NEXT, in_vel, min_vel, max_vel, min_pos, max_pos,
    out_dir, out_dir_rel, vel_0_time, vel_0_pos, vel_match_time,
    vel_match_in_pos, vel_match_out_pos, TINY_DP]

/-- C1 amended: from a bounds-enforced state the committed position can leave
`[min_pos, max_pos]`, but never by more than one maximal velocity step: after
the update, `min_pos - max_vel·period ≤ curr_pos ≤ max_pos + max_vel·period`. -/
theorem C1_amended_bounded_excursion (tp : simple_tp_t) (T : ℚ)
    (hmm : tp.min_pos ≤ tp.max_pos) (hV : 0 ≤ tp.max_vel)
    (ha : 0 < tp.max_acc) (hT : 0 < T)
    (hlo : tp.min_pos ≤ tp.curr_pos) (hhi : tp.curr_pos ≤ tp.max_pos)
    (hovo : |tp.out_vel_old| ≤ tp.max_vel) :
    tp.min_pos - tp.max_vel * T ≤ (simple_tp_update tp T).curr_pos ∧
    (simple_tp_update tp T).curr_pos ≤ tp.max_pos + tp.max_vel * T := by
  have haT : 0 ≤ tp.max_acc * T := mul_nonneg ha.le hT.le
  have hVT : 0 ≤ tp.max_vel * T := mul_nonneg hV hT.le
  have hmin := min_vel_mem tp T hovo haT
  have hmax := max_vel_mem tp T hovo haT
  have hm1 : min_vel tp T * T ≤ tp.max_vel * T :=
    mul_le_mul_of_nonneg_right hmin.2 hT.le
  have hm2 : -tp.max_vel * T ≤ min_vel tp T * T :=
    mul_le_mul_of_nonneg_right hmin.1 hT.le
  have hx1 : max_vel tp T * T ≤ tp.max_vel * T :=
    mul_le_mul_of_nonneg_right hmax.2 hT.le
  have hx2 : -tp.max_vel * T ≤ max_vel tp T * T :=
    mul_le_mul_of_nonneg_right hmax.1 hT.le
  have emin : min_pos tp T = tp.curr_pos + min_vel tp T * T := rfl
  have emax : max_pos tp T = tp.curr_pos + max_vel tp T * T := rfl
  rcases update_branches tp T with ⟨-, hu⟩ |
    ⟨-, hu | hu | ⟨-, hu⟩ | ⟨-, hu⟩ | ⟨h5, hu⟩ | ⟨-, -, -, -, -, -, hu⟩⟩ <;> rw [hu]
  · -- disabled path: position held
    have g1 : tp.min_pos - tp.max_vel * T ≤ tp.curr_pos := by linarith
    have g2 : tp.curr_pos ≤ tp.max_pos + tp.max_vel * T := by linarith
    exact ⟨g1, g2⟩
  · -- minimum reachable candidate
    have g1 : tp.min_pos - tp.max_vel * T ≤ min_pos tp T := by
      rw [emin]; linarith
    have g2 : min_pos tp T ≤ tp.max_pos + tp.max_vel * T := by
      rw [emin]; linarith
    exact ⟨g1, g2⟩
  · -- maximum reachable candidate
    have g1 : tp.min_pos - tp.max_vel * T ≤ max_pos tp T := by
      rw [emax]; linarith
    have g2 : max_pos tp T ≤ tp.max_pos + tp.max_vel * T := by
      rw [emax]; linarith
    exact ⟨g1, g2⟩
  · -- parking at the min limit
    have g1 : tp.min_pos - tp.max_vel * T ≤ tp.min_pos := by linarith
    have g2 : tp.min_pos ≤ tp.max_pos + tp.max_vel * T := by linarith
    exact ⟨g1, g2⟩
  · -- parking at the max limit
    have g1 : tp.min_pos - tp.max_vel * T ≤ tp.max_pos := by linarith
    have g2 : tp.max_pos ≤ tp.max_pos + tp.max_vel * T := by linarith
    exact ⟨g1, g2⟩
  · -- direct tracking: the command passed the reachable-window test
    rw [guard5, VALID_NEXT, decide_eq_true_eq] at h5
    have hple : tp.pos_cmd ≤ max_pos tp T := h5.1
    have hpge : min_pos tp T ≤ tp.pos_cmd := h5.2.1
    rw [emin] at hpge; rw [emax] at hple
    have g1 : tp.min_pos - tp.max_vel * T ≤ tp.pos_cmd := by linarith
    have g2 : tp.pos_cmd ≤ tp.max_pos + tp.max_vel * T := by linarith
    exact ⟨g1, g2⟩
  · -- fall-through: position held
    have g1 : tp.min_pos - tp.max_vel * T ≤ tp.curr_pos := by linarith
    have g2 : tp.curr_pos ≤ tp.max_pos + tp.max_vel * T := by linarith
    exact ⟨g1, g2⟩

/-- Bounds-enforced state used to instantiate `C1_amended_bounded_excursion`. -/
def C1_wit_state : simple_tp_t :=
  { pos_cmd := 0, curr_pos := 0, curr_vel := 0, in_pos_old := 0,
    out_vel_old := 0, min_pos := -1, max_pos := 1, max_vel := 1, max_acc := 1,
    enable := true, disallow_backoff := false, active := true }

/-- Instantiation of the amended C1 at a concrete bounds-enforced state. -/
theorem C1_amended_witness :
    C1_wit_state.min_pos - C1_wit_state.max_vel * 1 ≤
      (simple_tp_update C1_wit_state 1).curr_pos ∧
    (simple_tp_update C1_wit_state 1).curr_pos ≤
      C1_wit_state.max_pos + C1_wit_state.max_vel * 1 :=
  C1_amended_bounded_excursion C1_wit_state 1 (by norm_num [C1_wit_state])
    (by norm_num [C1_wit_state]) (by norm_num [C1_wit_state]) (by norm_num)
    (by norm_num [C1_wit_state]) (by norm_num [C1_wit_state])
    (by norm_num [C1_wit_state])

/-! ## C3 and C5: settle flag and the fall-through path -/

/-- Enabled state on which no cascade rule fires: `curr_pos = pos_cmd = 0`,
but the candidate `(pos_cmd, in_vel)` fails `VALID_NEXT` because the
finite-difference input velocity `2` exceeds the reachable window `[-1, 1]`. -/
def C5_state : simple_tp_t :=
  { pos_cmd := 0, curr_pos := 0, curr_vel := 0, in_pos_old := -2,
    out_vel_old := 0, min_pos := -100, max_pos := 100, max_vel := 10, max_acc := 1,
    enable := true, disallow_backoff := false, active := true }

/-- C5: an enabled call can return without any cascade rule firing: the state
is returned unchanged (its `active` already being 1), so `curr_pos`,
`curr_vel`, `out_vel_old` and `in_pos_old` are untouched and `active = 1`
even though the output position equals the command (the gap, `0`, is below
the settle threshold, yet the skipped settle check never clears `active`). -/
theorem C5_fall_through_non_commitment :
    C5_state.enable = true ∧
    simple_tp_update C5_state 1 = C5_state ∧
    (simple_tp_update C5_state 1).active = true ∧
    (simple_tp_update C5_state 1).curr_pos = (simple_tp_update C5_state 1).pos_cmd ∧
    |(simple_tp_update C5_state 1).curr_pos - (simple_tp_update C5_state 1).pos_cmd|
      < |TINY_DP C5_state.max_acc 1| := by
  norm_num [C5_state, simple_tp_update, SET_NEXT_STATE, guard1, guard2, guard3,
    guard4, guard5, VALID_NEXT, in_vel, min_vel, max_vel, min_pos, max_pos,
    out_dir, out_dir_rel, vel_0_time, vel_0_pos, vel_match_time,
    vel_match_in_pos, vel_match_out_pos, TINY_DP]

/-- Enabled fall-through state for refuting C3: `curr_pos = pos_cmd = 0` with
input velocity `3`, outside the reachable window, and no limit rule firing. -/
def C3_cex_state : simple_tp_t :=
  { pos_cmd := 0, curr_pos := 0, curr_vel := 0, in_pos_old := -3,
    out_vel_old := 0, min_pos := -100, max_pos := 100, max_vel := 10, max_acc := 1,
    enable := true, disallow_backoff := false, active := true }

/-- C3 as stated is false: at `C3_cex_state` (with `max_acc > 0` and a
positive period) the resulting gap `|curr_pos - pos_cmd| = 0` is below the
tiny-displacement threshold, yet `active = 1` after the call, because the
call falls through the cascade without any rule firing. -/
theorem C3_counterexample :
    0 < C3_cex_state.max_acc ∧ ((0:ℚ) < 1) ∧
    |(simple_tp_update C3_cex_state 1).curr_pos -
        (simple_tp_update C3_cex_state 1).pos_cmd| < |TINY_DP C3_cex_state.max_acc 1| ∧
    (simple_tp_update C3_cex_state 1).active = true := by
  norm_num [C3_cex_state, simple_tp_update, SET_NEXT_STATE, guard1, guard2, guard3,
    guard4, guard5, VALID_NEXT, in_vel, min_vel, max_vel, min_pos, max_pos,
    out_dir, out_dir_rel, vel_0_time, vel_0_pos, vel_match_time,
    vel_match_in_pos, vel_match_out_pos, TINY_DP]

/-- C3 amended: whenever the call actually commits through `SET_NEXT_STATE`
(the disabled path, any guard of rules 1-5 true, or `curr_pos ≠ pos_cmd`,
which together rule out the fall-through), `active = 0` after the call iff the
gap between the committed `curr_pos` and the (final) `pos_cmd` is below the
tiny-displacement threshold `|TINY_DP(max_acc, period)|`. -/
theorem C3_amended_settle_iff (tp : simple_tp_t) (T : ℚ)
    (h : tp.enable = false ∨ guard1 tp T = true ∨ guard2 tp T = true ∨
         guard3 tp T = true ∨ guard4 tp T = true ∨ guard5 tp T = true ∨
         tp.curr_pos ≠ tp.pos_cmd) :
    ((simple_tp_update tp T).active = false ↔
      |(simple_tp_update tp T).curr_pos - (simple_tp_update tp T).pos_cmd| <
        |TINY_DP tp.max_acc T|) := by
  have key : ∀ (tp1 : simple_tp_t) (op ov ip : ℚ), tp1.active = true →
      tp1.max_acc = tp.max_acc →
      ((SET_NEXT_STATE tp1 T op ov ip).active = false ↔
        |(SET_NEXT_STATE tp1 T op ov ip).curr_pos -
            (SET_NEXT_STATE tp1 T op ov ip).pos_cmd| < |TINY_DP tp.max_acc T|) := by
    intro tp1 op ov ip hact hacc
    rw [SET_active, SET_curr_pos, SET_pos_cmd, hact, ← hacc]
    split_ifs with hc
    · simpa using hc
    · simpa using hc
  rcases update_branches tp T with ⟨he, hu⟩ |
    ⟨he, hu | hu | ⟨-, hu⟩ | ⟨-, hu⟩ | ⟨-, hu⟩ | ⟨g1, g2, g3, g4, g5, heq, hu⟩⟩ <;>
    rw [hu] <;> try exact key _ _ _ _ rfl rfl
  -- fall-through: excluded by the hypothesis
  exfalso
  rcases h with h | h | h | h | h | h | h
  · rw [he] at h; exact Bool.noConfusion h
  · rw [g1] at h; exact Bool.noConfusion h
  · rw [g2] at h; exact Bool.noConfusion h
  · rw [g3] at h; exact Bool.noConfusion h
  · rw [g4] at h; exact Bool.noConfusion h
  · rw [g5] at h; exact Bool.noConfusion h
  · exact h heq

/-- Disabled state used to instantiate the amended C3. -/
def C3_wit_state : simple_tp_t :=
  { pos_cmd := 5, curr_pos := 2, curr_vel := 1, in_pos_old := 4,
    out_vel_old := 1, min_pos := -100, max_pos := 100, max_vel := 10, max_acc := 1,
    enable := false, disallow_backoff := false, active := true }

/-- Instantiation of the amended C3 on the (always-committing) disabled path. -/
theorem C3_amended_witness :
    ((simple_tp_update C3_wit_state 1).active = false ↔
      |(simple_tp_update C3_wit_state 1).curr_pos -
          (simple_tp_update C3_wit_state 1).pos_cmd| < |TINY_DP C3_wit_state.max_acc 1|) :=
  C3_amended_settle_iff C3_wit_state 1 (Or.inl rfl)

/-! ## C6: disabled path and idempotence -/

theorem update_disabled_eq (tp : simple_tp_t) (T : ℚ) (h : tp.enable = false) :
    simple_tp_update tp T =
      SET_NEXT_STATE { tp with active := true, pos_cmd := tp.curr_pos }
        T tp.curr_pos 0 tp.curr_pos := by
  rw [simple_tp_update, if_pos h]

/-- C6: a disabled call holds the position, zeroes the output velocities, and
overwrites the command and input memory with the current position; the result
is a fixed point of further disabled calls, so repeating the call gives the
same `curr_pos` and `curr_vel = 0` every time. -/
theorem C6_disabled_idempotent (tp : simple_tp_t) (T : ℚ)
    (h : tp.enable = false) (hT : 0 < T) :
    (simple_tp_update tp T).curr_pos = tp.curr_pos ∧
    (simple_tp_update tp T).curr_vel = 0 ∧
    (simple_tp_update tp T).out_vel_old = 0 ∧
    (simple_tp_update tp T).pos_cmd = tp.curr_pos ∧
    (simple_tp_update tp T).in_pos_old = tp.curr_pos ∧
    simple_tp_update (simple_tp_update tp T) T = simple_tp_update tp T := by
  have e1 := update_disabled_eq tp T h
  have he1 : (simple_tp_update tp T).enable = false := by rw [e1]; exact h
  have e2 := update_disabled_eq (simple_tp_update tp T) T he1
  refine ⟨by rw [e1]; rfl, by rw [e1]; rfl, by rw [e1]; rfl, by rw [e1]; rfl,
    by rw [e1]; rfl, ?_⟩
  rw [e2, e1]
  rfl

/-- Disabled state used to instantiate C6. -/
def C6_wit_state : simple_tp_t :=
  { pos_cmd := 7, curr_pos := 3, curr_vel := 2, in_pos_old := 6,
    out_vel_old := 4, min_pos := -100, max_pos := 100, max_vel := 10, max_acc := 1,
    enable := false, disallow_backoff := false, active := true }

/-- Instantiation of C6 at a concrete disabled state. -/
theorem C6_witness :
    (simple_tp_update C6_wit_state 1).curr_pos = C6_wit_state.curr_pos ∧
    (simple_tp_update C6_wit_state 1).curr_vel = 0 ∧
    (simple_tp_update C6_wit_state 1).out_vel_old = 0 ∧
    (simple_tp_update C6_wit_state 1).pos_cmd = C6_wit_state.curr_pos ∧
    (simple_tp_update C6_wit_state 1).in_pos_old = C6_wit_state.curr_pos ∧
    simple_tp_update (simple_tp_update C6_wit_state 1) 1 =
      simple_tp_update C6_wit_state 1 :=
  C6_disabled_idempotent C6_wit_state 1 rfl (by norm_num)

/-! ## C7: frame condition -/

/-- Disabled state on which the call rewrites `pos_cmd` and `out_vel_old`. -/
def C7_cex_state : simple_tp_t :=
  { pos_cmd := 1, curr_pos := 0, curr_vel := 0, in_pos_old := 0,
    out_vel_old := 5, min_pos := -100, max_pos := 100, max_vel := 10, max_acc := 1,
    enable := false, disallow_backoff := false, active := true }

/-- C7 as stated is false: the update also mutates `pos_cmd` (on the disabled
path) and `out_vel_old` (on every committing path), both of which the claim
lists as unchanged. -/
theorem C7_counterexample :
    (simple_tp_update C7_cex_state 1).pos_cmd ≠ C7_cex_state.pos_cmd ∧
    (simple_tp_update C7_cex_state 1).out_vel_old ≠ C7_cex_state.out_vel_old := by
  norm_num [C7_cex_state, simple_tp_update, SET_NEXT_STATE, TINY_DP]

/-- C7 amended: the update mutates only `curr_pos`, `curr_vel`, `in_pos_old`,
`out_vel_old`, `active` and (on the disabled path only) `pos_cmd`; the fields
`enable`, `min_pos`, `max_pos`, `max_vel`, `max_acc` and `disallow_backoff`
are unchanged by every call, and `pos_cmd` is unchanged on enabled calls. -/
theorem C7_amended_frame (tp : simple_tp_t) (T : ℚ) :
    (simple_tp_update tp T).enable = tp.enable ∧
    (simple_tp_update tp T).min_pos = tp.min_pos ∧
    (simple_tp_update tp T).max_pos = tp.max_pos ∧
    (simple_tp_update tp T).max_vel = tp.max_vel ∧
    (simple_tp_update tp T).max_acc = tp.max_acc ∧
    (simple_tp_update tp T).disallow_backoff = tp.disallow_backoff ∧
    (simple_tp_update tp T).pos_cmd =
      (if tp.enable = true then tp.pos_cmd else tp.curr_pos) := by
  rcases update_branches tp T with ⟨he, hu⟩ |
    ⟨he, hu | hu | ⟨-, hu⟩ | ⟨-, hu⟩ | ⟨-, hu⟩ | ⟨-, -, -, -, -, -, hu⟩⟩ <;>
    rw [hu] <;> rw [he] <;>
    exact ⟨rfl, rfl, rfl, rfl, rfl, rfl, rfl⟩

/-! ## C4: direct-tracking exactness -/

/-- C4: on an enabled call where none of the limit rules 1-4 fires and the
candidate `(pos_cmd, in_vel)` passes the `VALID_NEXT` window test, the update
adopts the command exactly: `curr_pos = pos_cmd` and `curr_vel = in_vel`. -/
theorem C4_direct_tracking (tp : simple_tp_t) (T : ℚ)
    (hen : tp.enable = true)
    (h1 : guard1 tp T = false) (h2 : guard2 tp T = false)
    (h3 : guard3 tp T = false) (h4 : guard4 tp T = false)
    (h5 : guard5 tp T = true) :
    (simple_tp_update tp T).curr_pos = tp.pos_cmd ∧
    (simple_tp_update tp T).curr_vel = in_vel tp T := by
  rw [simple_tp_update, if_neg (by simp [hen]), if_neg (by simp [h1]),
    if_neg (by simp [h2]), if_neg (by simp [h3]), if_neg (by simp [h4]),
    if_pos h5]
  exact ⟨rfl, rfl⟩

/-- Enabled in-window tracking state used to instantiate C4. -/
def C4_wit_state : simple_tp_t :=
  { pos_cmd := 1/2, curr_pos := 0, curr_vel := 0, in_pos_old := 0,
    out_vel_old := 0, min_pos := -100, max_pos := 100, max_vel := 10, max_acc := 1,
    enable := true, disallow_backoff := false, active := true }

/-- Instantiation of C4 at a concrete tracking state. -/
theorem C4_witness :
    (simple_tp_update C4_wit_state 1).curr_pos = C4_wit_state.pos_cmd ∧
    (simple_tp_update C4_wit_state 1).curr_vel = in_vel C4_wit_state 1 :=
  C4_direct_tracking C4_wit_state 1 rfl
    (by norm_num [guard1, VALID_NEXT, in_vel, min_vel, max_vel, min_pos, max_pos,
      out_dir, vel_0_time, vel_0_pos, C4_wit_state])
    (by norm_num [guard2, VALID_NEXT, in_vel, min_vel, max_vel, min_pos, max_pos,
      out_dir, vel_0_time, vel_0_pos, C4_wit_state])
    (by norm_num [guard3, VALID_NEXT, in_vel, min_vel, max_vel, min_pos, max_pos,
      out_dir_rel, vel_match_time, vel_match_in_pos, vel_match_out_pos,
      abs_of_pos, C4_wit_state])
    (by norm_num [guard4, VALID_NEXT, in_vel, min_vel, max_vel, min_pos, max_pos,
      out_dir_rel, vel_match_time, vel_match_in_pos, vel_match_out_pos,
      abs_of_pos, C4_wit_state])
    (by norm_num [guard5, VALID_NEXT, in_vel, min_vel, max_vel, min_pos, max_pos,
      C4_wit_state])

/-! ## C8: disallow-backoff never reverses -/

/-- C8: on an enabled call with `disallow_backoff` set, decided by a
position-mismatch rule (rules 1-5 skipped, `curr_pos ≠ pos_cmd`), the
committed candidate is the deceleration-side reachable extreme — the minimum
one when output is ahead of the command, the maximum one when it is behind —
whether or not the velocity-match projection predicts overshoot: the
opposite-extreme backoff candidate is never selected. -/
theorem C8_disallow_backoff_never_reverses (tp : simple_tp_t) (T : ℚ)
    (hen : tp.enable = true) (hdb : tp.disallow_backoff = true)
    (h1 : guard1 tp T = false) (h2 : guard2 tp T = false)
    (h3 : guard3 tp T = false) (h4 : guard4 tp T = false)
    (h5 : guard5 tp T = false)
    (hne : tp.curr_pos ≠ tp.pos_cmd) :
    (tp.curr_pos > tp.pos_cmd →
      (simple_tp_update tp T).curr_pos = min_pos tp T ∧
      (simple_tp_update tp T).curr_vel = min_vel tp T) ∧
    (tp.curr_pos < tp.pos_cmd →
      (simple_tp_update tp T).curr_pos = max_pos tp T ∧
      (simple_tp_update tp T).curr_vel = max_vel tp T) := by
  rw [simple_tp_update, if_neg (by simp [hen]), if_neg (by simp [h1]),
    if_neg (by simp [h2]), if_neg (by simp [h3]), if_neg (by simp [h4]),
    if_neg (by simp [h5])]
  constructor
  · intro hgt
    rw [if_pos hgt]
    by_cases hm : vel_match_in_pos tp T < vel_match_out_pos tp T
    · rw [if_pos hm]; exact ⟨rfl, rfl⟩
    · rw [if_neg hm, if_pos hdb]; exact ⟨rfl, rfl⟩
  · intro hlt
    rw [if_neg (not_lt.mpr hlt.le), if_pos hlt]
    by_cases hm : vel_match_in_pos tp T > vel_match_out_pos tp T
    · rw [if_pos hm]; exact ⟨rfl, rfl⟩
    · rw [if_neg hm, if_pos hdb]; exact ⟨rfl, rfl⟩

/-- Enabled overshooting state with backoff disallowed, rules 1-5 skipped. -/
def C8_wit_state : simple_tp_t :=
  { pos_cmd := 0, curr_pos := 1, curr_vel := 0, in_pos_old := -2,
    out_vel_old := 0, min_pos := -100, max_pos := 100, max_vel := 10, max_acc := 1,
    enable := true, disallow_backoff := true, active := true }

/-- Instantiation of C8 at a state where the overshoot branch is reached with
backoff disallowed. -/
theorem C8_witness :
    (C8_wit_state.curr_pos > C8_wit_state.pos_cmd →
      (simple_tp_update C8_wit_state 1).curr_pos = min_pos C8_wit_state 1 ∧
      (simple_tp_update C8_wit_state 1).curr_vel = min_vel C8_wit_state 1) ∧
    (C8_wit_state.curr_pos < C8_wit_state.pos_cmd →
      (simple_tp_update C8_wit_state 1).curr_pos = max_pos C8_wit_state 1 ∧
      (simple_tp_update C8_wit_state 1).curr_vel = max_vel C8_wit_state 1) :=
  C8_disallow_backoff_never_reverses C8_wit_state 1 rfl rfl
    (by norm_num [guard1, VALID_NEXT, in_vel, min_vel, max_vel, min_pos, max_pos,
      out_dir, vel_0_time, vel_0_pos, C8_wit_state])
    (by norm_num [guard2, VALID_NEXT, in_vel, min_vel, max_vel, min_pos, max_pos,
      out_dir, vel_0_time, vel_0_pos, C8_wit_state])
    (by norm_num [guard3, VALID_NEXT, in_vel, min_vel, max_vel, min_pos, max_pos,
      out_dir_rel, vel_match_time, vel_match_in_pos, vel_match_out_pos,
      abs_of_pos, C8_wit_state])
    (by norm_num [guard4, VALID_NEXT, in_vel, min_vel, max_vel, min_pos, max_pos,
      out_dir_rel, vel_match_time, vel_match_in_pos, vel_match_out_pos,
      abs_of_pos, C8_wit_state])
    (by norm_num [guard5, VALID_NEXT, in_vel, min_vel, max_vel, min_pos, max_pos,
      C8_wit_state])
    (by norm_num [C8_wit_state])

/-! ## C9: concrete stop-overshoot scenario -/

/-- The C9 scenario state: `max_vel = 10`, `max_acc = 100`,
`min_pos = -50`, `max_pos = 50`, `curr_pos = 49.95`, previous output velocity
`10`, with arbitrary command `p`, input memory `ipo` and flag values. -/
def C9_state (p ipo : ℚ) (db act : Bool) : simple_tp_t :=
  { pos_cmd := p, curr_pos := 4995/100, curr_vel := 10, in_pos_old := ipo,
    out_vel_old := 10, min_pos := -50, max_pos := 50, max_vel := 10, max_acc := 100,
    enable := true, disallow_backoff := db, active := act }

/-- C9: whatever the command and input memory, the max-side stop-overshoot
rule fires at the scenario state with period `1/1000` (the projected stop
position `50.46` is beyond `max_pos = 50` and parking at `50` is unreachable),
so the update commits the minimum reachable candidate:
`curr_pos = 49.9599`, `curr_vel = 9.9`. -/
theorem C9_stop_overshoot (p ipo : ℚ) (db act : Bool) :
    (simple_tp_update (C9_state p ipo db act) (1/1000)).curr_pos = 499599/10000 ∧
    (simple_tp_update (C9_state p ipo db act) (1/1000)).curr_vel = 99/10 := by
  have hg : guard1 (C9_state p ipo db act) (1/1000) = true := by
    norm_num [guard1, VALID_NEXT, vel_0_pos, vel_0_time, out_dir,
      min_vel, max_vel, min_pos, max_pos, abs_of_pos, C9_state]
  rw [simple_tp_update, if_neg (by simp [C9_state]), if_pos hg]
  constructor
  · show min_pos (C9_state p ipo db act) (1/1000) = 499599/10000
    norm_num [min_pos, min_vel, C9_state]
  · show min_vel (C9_state p ipo db act) (1/1000) = 99/10
    norm_num [min_vel, C9_state]

/-! ## C10: min-side priority over max-side -/

/-- C10: on an enabled call where the guards of rules 3 and 4 both hold and
rules 1-2 do not fire, the min-side outcome is committed (parking at
`min_pos` when that candidate is valid, the minimum reachable candidate
otherwise); the max-side rule is never evaluated. -/
theorem C10_min_side_priority (tp : simple_tp_t) (T : ℚ)
    (hen : tp.enable = true)
    (h1 : guard1 tp T = false) (h2 : guard2 tp T = false)
    (h3 : guard3 tp T = true) (h4 : guard4 tp T = true) :
    (simple_tp_update tp T).curr_pos =
      (if VALID_NEXT tp T tp.min_pos 0 = true then tp.min_pos else min_pos tp T) ∧
    (simple_tp_update tp T).curr_vel =
      (if VALID_NEXT tp T tp.min_pos 0 = true then 0 else min_vel tp T) := by
  rw [simple_tp_update, if_neg (by simp [hen]), if_neg (by simp [h1]),
    if_neg (by simp [h2]), if_pos h3]
  by_cases hv : VALID_NEXT tp T tp.min_pos 0 = true
  · rw [if_pos hv, if_pos hv, if_pos hv]; exact ⟨rfl, rfl⟩
  · rw [if_neg hv, if_neg hv, if_neg hv]; exact ⟨rfl, rfl⟩

/-- State with inconsistent bounds (`min_pos = 1 > max_pos = -1`) on which
the guards of rules 3 and 4 hold simultaneously. -/
def C10_wit_state : simple_tp_t :=
  { pos_cmd := 0, curr_pos := 0, curr_vel := 0, in_pos_old := 0,
    out_vel_old := 0, min_pos := 1, max_pos := -1, max_vel := 10, max_acc := 1,
    enable := true, disallow_backoff := false, active := true }

/-- Instantiation of C10 at a state where both limit-heading guards hold. -/
theorem C10_witness :
    (simple_tp_update C10_wit_state 1).curr_pos =
      (if VALID_NEXT C10_wit_state 1 C10_wit_state.min_pos 0 = true then
        C10_wit_state.min_pos else min_pos C10_wit_state 1) ∧
    (simple_tp_update C10_wit_state 1).curr_vel =
      (if VALID_NEXT C10_wit_state 1 C10_wit_state.min_pos 0 = true then
        0 else min_vel C10_wit_state 1) :=
  C10_min_side_priority C10_wit_state 1 rfl
    (by norm_num [guard1, VALID_NEXT, in_vel, min_vel, max_vel, min_pos, max_pos,
      out_dir, vel_0_time, vel_0_pos, C10_wit_state])
    (by norm_num [guard2, VALID_NEXT, in_vel, min_vel, max_vel, min_pos, max_pos,
      out_dir, vel_0_time, vel_0_pos, C10_wit_state])
    (by norm_num [guard3, VALID_NEXT, in_vel, min_vel, max_vel, min_pos, max_pos,
      out_dir_rel, vel_match_time, vel_match_in_pos, vel_match_out_pos,
      C10_wit_state])
    (by norm_num [guard4, VALID_NEXT, in_vel, min_vel, max_vel, min_pos, max_pos,
      out_dir_rel, vel_match_time, vel_match_in_pos, vel_match_out_pos,
      C10_wit_state])

/-- Bounds-enforced state used to instantiate C2. -/
def C2_wit_state : simple_tp_t :=
  { pos_cmd := 1/2, curr_pos := 0, curr_vel := 1/2, in_pos_old := 0,
    out_vel_old := 1/2, min_pos := -100, max_pos := 100, max_vel := 1, max_acc := 1,
    enable := true, disallow_backoff := false, active := true }

/-- Instantiation of C2 at a concrete bounds-enforced state. -/
theorem C2_witness :
    |(simple_tp_update C2_wit_state 1).curr_vel| ≤ C2_wit_state.max_vel :=
  C2_velocity_bound C2_wit_state 1 (by norm_num [C2_wit_state])
    (by norm_num [C2_wit_state]) (by norm_num)
    (by norm_num [C2_wit_state, abs_of_pos]) (by norm_num [C2_wit_state, abs_of_pos])
